import Mathlib

/-
  Verification development for the Lavial coach-ticketing backend.

  The embedding models:
  - the date normalizer and date-key derivation of
    src/controllers/bookingController.ts (normalizeTravelDate, formatDateKey),
  - the availability check and pricing computation of createBooking,
  - the payment lifecycle handlers of the payments controller
    (createPaymentSheet, handlePaymentSuccess, handlePaymentFailed),
  - ticket redemption of src/controllers/ticketController.ts
    (useTicket, validateQRCode).

  JavaScript Date values are modelled as a pair of whole days since the Unix
  epoch (1970-01-01 UTC) and milliseconds within that UTC day.  Currency
  amounts are modelled as exact rationals; Math.round is floor(x + 1/2),
  matching the JavaScript semantics on exact values.  Persistence is a list
  per collection; findOne is first-match, save / findOneAndUpdate update the
  first matching record.
-/

namespace Lavial

/-- A JavaScript Date instant: whole days since 1970-01-01 UTC together with
the milliseconds elapsed within that UTC day. -/
structure JSTime where
  days : Int
  msOfDay : Nat
  deriving DecidableEq, Repr

/-- Milliseconds per hour. -/
def msPerHour : Nat := 3600000

/-- Date.prototype.getUTCHours. -/
def jsGetUTCHours (t : JSTime) : Nat := t.msOfDay / msPerHour

/-- Date.prototype.getUTCDay: 0 = Sunday .. 6 = Saturday.  1970-01-01 was a
Thursday (= 4). -/
def jsGetUTCDay (t : JSTime) : Int := (t.days + 4) % 7

/-- The instant as milliseconds since the epoch (Date.prototype.getTime). -/
def jsToMs (t : JSTime) : Int := t.days * 86400000 + (t.msOfDay : Int)

/-- Days since the epoch of a proleptic-Gregorian calendar day
(Hinnant days_from_civil). -/
def daysFromCivil (y : Int) (m d : Nat) : Int :=
  let y1 : Int := if m ≤ 2 then y - 1 else y
  let era : Int := (if 0 ≤ y1 then y1 else y1 - 399) / 400
  let yoe : Nat := (y1 - era * 400).toNat
  let mp : Nat := if 2 < m then m - 3 else m + 9
  let doy : Nat := (153 * mp + 2) / 5 + d - 1
  let doe : Nat := yoe * 365 + yoe / 4 - yoe / 100 + doy
  era * 146097 + (doe : Int) - 719468

/-- Calendar day (year, month, day) of a count of days since the epoch
(Hinnant civil_from_days). -/
def civilFromDays (z0 : Int) : Int × Nat × Nat :=
  let z : Int := z0 + 719468
  let era : Int := (if 0 ≤ z then z else z - 146096) / 146097
  let doe : Nat := (z - era * 146097).toNat
  let yoe : Nat := (doe - doe / 1460 + doe / 36524 - doe / 146096) / 365
  let y : Int := (yoe : Int) + era * 400
  let doy : Nat := doe - (365 * yoe + yoe / 4 - yoe / 100)
  let mp : Nat := (5 * doy + 2) / 153
  let d : Nat := doy - (153 * mp + 2) / 5 + 1
  let m : Nat := if mp < 10 then mp + 3 else mp - 9
  (if m ≤ 2 then y + 1 else y, m, d)

/-- Zero-padded two-digit decimal rendering. -/
def pad2 (n : Nat) : String := if n < 10 then "0" ++ toString n else toString n

/-- Zero-padded four-digit decimal rendering. -/
def pad4 (n : Nat) : String :=
  if n < 10 then "000" ++ toString n
  else if n < 100 then "00" ++ toString n
  else if n < 1000 then "0" ++ toString n
  else toString n

/-- The YYYY-MM-DD part of toISOString for a UTC-midnight instant given by its
epoch-day count. -/
def isoDateKey (days : Int) : String :=
  let c := civilFromDays days
  pad4 c.1.toNat ++ "-" ++ pad2 c.2.1 ++ "-" ++ pad2 c.2.2

/-- The roll-and-truncate core of normalizeTravelDate: if the UTC hour of day
is at least 12, advance one calendar day; then truncate to UTC midnight. -/
def normalizeInstant (t : JSTime) : JSTime :=
  let t1 := if 12 ≤ jsGetUTCHours t then { t with days := t.days + 1 } else t
  { t1 with msOfDay := 0 }

/-- Classification of the string inputs accepted by normalizeTravelDate: the
trimmed string is empty, matches the bare-date regex and parses as midnight
UTC, parses as some other timestamp, or does not parse (NaN). -/
inductive DateStr
  | empty
  | bare (y : Int) (m d : Nat)
  | stamp (t : JSTime)
  | unparsable
  deriving DecidableEq, Repr

/-- The input of normalizeTravelDate: either an existing Date object or a
string. -/
inductive DateInput
  | dateObj (t : JSTime)
  | str (s : DateStr)
  deriving DecidableEq, Repr

/-- normalizeTravelDate of bookingController.ts: empty strings and unparsable
strings throw; a bare YYYY-MM-DD string is read as midnight UTC; then the
instant is rolled forward one day when its UTC hour is at least 12 and
truncated to UTC midnight. -/
def normalizeTravelDate : DateInput → Except String JSTime
  | .dateObj t => .ok (normalizeInstant t)
  | .str .empty => .error "Date value cannot be empty"
  | .str (.bare y m d) => .ok (normalizeInstant { days := daysFromCivil y m d, msOfDay := 0 })
  | .str (.stamp t) => .ok (normalizeInstant t)
  | .str .unparsable => .error "Invalid date value"

/-- formatDateKey of bookingController.ts: normalize, then take the date part
of toISOString. -/
def formatDateKey (input : DateInput) : Except String String :=
  (normalizeTravelDate input).map (fun t => isoDateKey t.days)

/-- JavaScript Math.round on an exact rational: floor(x + 1/2). -/
def jsRound (x : ℚ) : Int := ⌊x + 1 / 2⌋

/-- Math.round(x * 100) / 100: rounding to two decimal places. -/
def round2 (x : ℚ) : ℚ := (jsRound (x * 100) : ℚ) / 100

/-- Math.abs on rationals. -/
def jsAbs (x : ℚ) : ℚ := if x < 0 then -x else x

/-- The service fee of createBooking:
Math.max(3, Math.round(subtotal * 0.015 * 100) / 100). -/
def computeFees (subtotal : ℚ) : ℚ := max 3 (round2 (subtotal * 0.015))

/-- Supported currencies. -/
inductive Currency
  | ron
  | eur
  deriving DecidableEq, Repr

/-- A promo-code record (PromoCode model). -/
structure PromoCode where
  code : String
  discountPercent : ℚ
  discountFixed : ℚ
  maxDiscount : ℚ
  validFrom : Int
  validUntil : Int
  usageLimit : Nat
  usageCount : Nat
  active : Bool
  deriving DecidableEq, Repr

/-- A route record (Route model); availableDays is none when the field is
null/undefined, closedDates holds YYYY-MM-DD keys. -/
structure Route where
  fromCity : String
  toCity : String
  basePrice : ℚ
  currency : Currency
  departureTime : String
  arrivalTime : String
  active : Bool
  availableDays : Option (List Int)
  studentDiscount : Option ℚ
  closedDates : List String
  deriving DecidableEq, Repr

/-- The findOne query createBooking issues for a promo code: uppercase code
match, active, and current time inside the validity window. -/
def promoQueryMatches (now : Int) (codeUpper : String) (p : PromoCode) : Bool :=
  p.code == codeUpper && p.active && decide (p.validFrom ≤ now) && decide (now ≤ p.validUntil)

/-- findOne over the promo collection with the createBooking filter. -/
def findActivePromo (promos : List PromoCode) (code : String) (now : Int) : Option PromoCode :=
  promos.find? (promoQueryMatches now code.toUpper)

/-- The promo branch of createBooking: given the findOne result, the usage
limit is checked, then a percent discount is rounded to two decimals and
capped by maxDiscount when positive, else a fixed discount applies; the code
is recorded on the booking only when the usage check passes. -/
def promoBookingDiscount (promo : Option PromoCode) (subtotal : ℚ) : ℚ × Option String :=
  match promo with
  | none => (0, none)
  | some p =>
    if p.usageLimit == 0 || p.usageCount < p.usageLimit then
      let d : ℚ :=
        if 0 < p.discountPercent then
          let d0 := round2 (subtotal * (p.discountPercent / 100))
          if 0 < p.maxDiscount then min d0 p.maxDiscount else d0
        else if 0 < p.discountFixed then p.discountFixed
        else 0
      (d, some p.code)
    else (0, none)

/-- The student-discount branch of createBooking: a requested amount counts
only when positive and the route has a positive studentDiscount, in which
case it is clamped to the route value. -/
def studentDiscountAmount (requested : Option ℚ) (route : Route) : ℚ :=
  match requested with
  | none => 0
  | some v =>
    if 0 < v then
      match route.studentDiscount with
      | some sd => if 0 < sd then min v sd else 0
      | none => 0
    else 0

/-- The pricing fields persisted on a new booking. -/
structure Pricing where
  subtotal : ℚ
  fees : ℚ
  discount : ℚ
  studentDiscount : ℚ
  total : ℚ
  promoCode : Option String
  deriving DecidableEq, Repr

/-- The pricing computation of createBooking (lines 104-149): subtotal is the
route basePrice, fees are the floored service fee, discounts are the promo
and clamped student amounts, and total is floored at zero. -/
def createBookingPricing (route : Route) (promo : Option PromoCode)
    (requestedStudentDiscount : Option ℚ) : Pricing :=
  let subtotal := route.basePrice
  let fees := computeFees subtotal
  let pd := promoBookingDiscount promo subtotal
  let sda := studentDiscountAmount requestedStudentDiscount route
  { subtotal := subtotal
    fees := fees
    discount := pd.1
    studentDiscount := sda
    total := max 0 (subtotal + fees - pd.1 - sda)
    promoCode := pd.2 }

/-- Outcome of the availability checks of createBooking. -/
inductive AvailResult
  | ok
  | dayNotAvailable
  | dateClosed
  deriving DecidableEq, Repr

/-- The availability checks of createBooking (lines 56-102), in source order:
when availableDays is present and non-empty the normalized UTC weekday must be
a member, else the request is rejected; otherwise the date-key must not be in
closedDates. -/
def checkAvailability (route : Route) (travelDate : JSTime) : AvailResult :=
  let dayOfWeek := jsGetUTCDay travelDate
  let blockedDay : Bool :=
    match route.availableDays with
    | some days => 0 < days.length && !(days.contains dayOfWeek)
    | none => false
  if blockedDay then .dayNotAvailable
  else
    let travelDateKey := isoDateKey (normalizeInstant travelDate).days
    if route.closedDates.contains travelDateKey then .dateClosed else .ok

/-- Booking status enum of the Booking model. -/
inductive BookingStatus
  | pending
  | paid
  | cancelled
  | refunded
  deriving DecidableEq, Repr

/-- Passenger subdocument of a booking. -/
structure Passenger where
  name : String
  surname : String
  email : String
  phone : String
  deriving DecidableEq, Repr

/-- A booking record (Booking model). -/
structure Booking where
  bookingId : String
  fromCity : String
  toCity : String
  date : JSTime
  departureTime : String
  arrivalTime : String
  passenger : Passenger
  subtotal : ℚ
  fees : ℚ
  discount : ℚ
  studentDiscount : ℚ
  total : ℚ
  currency : Currency
  promoCode : Option String
  status : BookingStatus
  paymentIntentId : Option String
  stripeCustomerId : Option String
  deriving DecidableEq, Repr

/-- A ticket record (Ticket model). -/
structure Ticket where
  ticketId : String
  bookingId : String
  qrToken : String
  fromCity : String
  toCity : String
  date : JSTime
  departureTime : String
  arrivalTime : String
  passengerName : String
  price : ℚ
  currency : Currency
  isUsed : Bool
  usedAt : Option JSTime
  deriving DecidableEq, Repr

/-- The persistent store: one list per collection. -/
structure DB where
  bookings : List Booking
  tickets : List Ticket
  promos : List PromoCode
  deriving DecidableEq, Repr

/-- Booking.findOne on bookingId: first match. -/
def findBooking (db : DB) (bid : String) : Option Booking :=
  db.bookings.find? (fun b => b.bookingId == bid)

/-- Replace the first booking with the given bookingId by its image under f
(document save after findOne, and findOneAndUpdate). -/
def updateBookingFirst : List Booking → String → (Booking → Booking) → List Booking
  | [], _, _ => []
  | b :: rest, bid, f =>
    if b.bookingId == bid then f b :: rest else b :: updateBookingFirst rest bid f

/-- Save an updated booking back into the store. -/
def saveBooking (db : DB) (bid : String) (f : Booking → Booking) : DB :=
  { db with bookings := updateBookingFirst db.bookings bid f }

/-- Ticket.findOne on bookingId: first match. -/
def findTicketByBooking (db : DB) (bid : String) : Option Ticket :=
  db.tickets.find? (fun t => t.bookingId == bid)

/-- Ticket.findOne on qrToken: first match. -/
def findTicketByQr (db : DB) (qr : String) : Option Ticket :=
  db.tickets.find? (fun t => t.qrToken == qr)

/-- Replace the first ticket with the given qrToken by its image under f. -/
def updateTicketFirst : List Ticket → String → (Ticket → Ticket) → List Ticket
  | [], _, _ => []
  | t :: rest, qr, f =>
    if t.qrToken == qr then f t :: rest else t :: updateTicketFirst rest qr f

/-- PromoCode.findOneAndUpdate with an increment of usageCount: bumps the
first record with the given code, and is a no-op when none matches. -/
def incPromoFirst : List PromoCode → String → List PromoCode
  | [], _ => []
  | p :: rest, c =>
    if p.code == c then { p with usageCount := p.usageCount + 1 } :: rest
    else p :: incPromoFirst rest c

/-- The usageCount of the first promo record with the given code (0 when
absent). -/
def promoUsage (db : DB) (c : String) : Nat :=
  match db.promos.find? (fun p => p.code == c) with
  | some p => p.usageCount
  | none => 0

/-- How many tickets exist for a bookingId. -/
def ticketCountFor (db : DB) (bid : String) : Nat :=
  (db.tickets.filter (fun t => t.bookingId == bid)).length

/-- The slice of a Stripe payment_intent event the webhook handlers read. -/
structure PaymentIntentEvent where
  id : String
  metadataBookingId : Option String
  amountReceived : Option Int
  amount : Option Int
  currency : Option String
  deriving DecidableEq, Repr

/-- The currency update of handlePaymentSuccess: the uppercased provider
currency is stored only when it is RON or EUR. -/
def applyCurrency (cur : Option String) (b : Booking) : Booking :=
  match cur with
  | some c =>
    if c = "RON" then { b with currency := .ron }
    else if c = "EUR" then { b with currency := .eur }
    else b
  | none => b

/-- The in-place booking mutation of handlePaymentSuccess before save: status
becomes paid, the payment-intent id is recorded, a positive settled amount
overwrites the total (in major units), and a recognised provider currency
overwrites the currency. -/
def markPaid (pi : PaymentIntentEvent) (b : Booking) : Booking :=
  let amountReceived : Int := pi.amountReceived.getD (pi.amount.getD 0)
  let b1 := { b with status := BookingStatus.paid, paymentIntentId := some pi.id }
  let b2 := if 0 < amountReceived then { b1 with total := (amountReceived : ℚ) / 100 } else b1
  applyCurrency (pi.currency.map String.toUpper) b2

/-- Build the ticket handlePaymentSuccess persists for a freshly paid
booking: route, time, passenger and price fields are copied from the updated
booking, with isUsed false. -/
def issueTicket (freshTicketId freshQrToken : String) (b : Booking) : Ticket :=
  { ticketId := freshTicketId
    bookingId := b.bookingId
    qrToken := freshQrToken
    fromCity := b.fromCity
    toCity := b.toCity
    date := b.date
    departureTime := b.departureTime
    arrivalTime := b.arrivalTime
    passengerName := b.passenger.name ++ " " ++ b.passenger.surname
    price := b.total
    currency := b.currency
    isUsed := false
    usedAt := none }

/-- handlePaymentSuccess of the payments controller: missing metadata or an
unknown booking throw; an already-paid booking returns with no change; else
the booking is marked paid and saved, the promo usage counter of a non-empty
promoCode is incremented, and a ticket is created unless one already exists
for the bookingId.  The fresh ticketId and qrToken the handler would draw are
passed as arguments. -/
def handlePaymentSuccess (pi : PaymentIntentEvent) (freshTicketId freshQrToken : String)
    (db : DB) : Except String DB :=
  match pi.metadataBookingId with
  | none => .error "Booking ID not found in payment intent metadata"
  | some bookingId =>
    match findBooking db bookingId with
    | none => .error "Booking not found"
    | some booking =>
      if booking.status = .paid then .ok db
      else
        let updated := markPaid pi booking
        let db1 := saveBooking db bookingId (markPaid pi)
        let db2 :=
          match updated.promoCode with
          | some c => if c = "" then db1 else { db1 with promos := incPromoFirst db1.promos c }
          | none => db1
        match findTicketByBooking db2 updated.bookingId with
        | some _ => .ok db2
        | none =>
          .ok { db2 with tickets := db2.tickets ++ [issueTicket freshTicketId freshQrToken updated] }

/-- handlePaymentFailed of the payments controller: missing metadata throws;
Booking.findOneAndUpdate sets status to cancelled on the first booking with
the id and throws when none exists.  No status precondition is checked. -/
def handlePaymentFailed (pi : PaymentIntentEvent) (db : DB) : Except String DB :=
  match pi.metadataBookingId with
  | none => .error "Booking ID not found in payment intent metadata"
  | some bookingId =>
    match findBooking db bookingId with
    | none => .error "Booking not found"
    | some _ => .ok (saveBooking db bookingId (fun b => { b with status := .cancelled }))

/-- Outcome of createPaymentSheet. -/
inductive PaySheetOutcome
  | bookingNotFound
  | alreadyProcessed (currentStatus : BookingStatus)
  | ok (paymentIntentId : String) (customer : String)
  deriving DecidableEq, Repr

/-- The total-override step of createPaymentSheet: when a totalAmount is
supplied and differs from the stored total by more than 0.01, the stored
total is overwritten and saved; the (possibly updated) in-memory booking and
store are returned. -/
def overrideTotal (bookingId : String) (totalAmount : Option ℚ) (booking : Booking)
    (db : DB) : Booking × DB :=
  match totalAmount with
  | some t =>
    if 0.01 < jsAbs (t - booking.total) then
      ({ booking with total := t }, saveBooking db bookingId (fun b => { b with total := t }))
    else (booking, db)
  | none => (booking, db)

/-- createPaymentSheet of the payments controller, in source order: load the
booking (404 when absent); apply the total override; only then reject
non-pending bookings; otherwise ensure a provider customer id is memoized on
the booking, record a fresh payment intent id, and return the provider
material.  The currency enum makes the invalid-currency branch of the source
unreachable here.  Fresh provider ids are passed as arguments. -/
def createPaymentSheet (bookingId : String) (totalAmount : Option ℚ)
    (freshCustomerId freshPaymentIntentId : String) (db : DB) :
    PaySheetOutcome × DB :=
  match findBooking db bookingId with
  | none => (.bookingNotFound, db)
  | some booking =>
    let od := overrideTotal bookingId totalAmount booking db
    let booking1 := od.1
    let db1 := od.2
    if booking1.status ≠ .pending then (.alreadyProcessed booking1.status, db1)
    else
      let customerId := booking1.stripeCustomerId.getD freshCustomerId
      let db2 :=
        match booking1.stripeCustomerId with
        | some _ => db1
        | none => saveBooking db1 bookingId (fun b => { b with stripeCustomerId := some freshCustomerId })
      let db3 := saveBooking db2 bookingId (fun b => { b with paymentIntentId := some freshPaymentIntentId })
      (.ok freshPaymentIntentId customerId, db3)

/-- Outcome of useTicket. -/
inductive UseOutcome
  | notFound
  | alreadyUsed (usedAt : Option JSTime)
  | success
  deriving DecidableEq, Repr

/-- The in-place mutation of useTicket: set isUsed and stamp usedAt. -/
def latchTicket (now : JSTime) (t : Ticket) : Ticket :=
  { t with isUsed := true, usedAt := some now }

/-- useTicket of ticketController.ts: 404 when no ticket has the qrToken, 400
with the stored usedAt when it is already used, else latch isUsed and stamp
usedAt with the current time.  The booking is never consulted. -/
def useTicket (qrToken : String) (now : JSTime) (db : DB) : UseOutcome × DB :=
  match findTicketByQr db qrToken with
  | none => (.notFound, db)
  | some ticket =>
    if ticket.isUsed then (.alreadyUsed ticket.usedAt, db)
    else
      (.success, { db with tickets := updateTicketFirst db.tickets qrToken (latchTicket now) })

/-- Outcome of validateQRCode. -/
inductive ValidateOutcome
  | notFound
  | bookingNotConfirmed
  | alreadyUsed (usedAt : Option JSTime)
  | expired
  | valid
  deriving DecidableEq, Repr

/-- validateQRCode of ticketController.ts, in source order: unknown token,
then booking missing or not paid, then the already-used report carrying the
stored usedAt, then day-level expiry against the provided midnight of today,
else valid. -/
def validateQRCode (qrToken : String) (todayMidnight : JSTime) (db : DB) : ValidateOutcome :=
  match findTicketByQr db qrToken with
  | none => .notFound
  | some ticket =>
    let bookingConfirmed : Bool :=
      match findBooking db ticket.bookingId with
      | some booking => booking.status == .paid
      | none => false
    if !bookingConfirmed then .bookingNotConfirmed
    else if ticket.isUsed then .alreadyUsed ticket.usedAt
    else if jsToMs ticket.date < jsToMs todayMidnight then .expired
    else .valid

/-! Concrete records used by witnesses and counterexamples. -/

/-- A route with studentDiscount 10 used for the C5 witness. -/
def c5route : Route :=
  { fromCity := "Iasi", toCity := "Chisinau", basePrice := 100, currency := .ron
    departureTime := "08:00", arrivalTime := "12:00", active := true
    availableDays := none, studentDiscount := some 10, closedDates := [] }

/-- A route only available on Wednesdays with one closed date, used for the
C6 witness; 2024-12-25 (epoch day 20082) is a Wednesday. -/
def c6route : Route :=
  { fromCity := "Cluj", toCity := "Brasov", basePrice := 80, currency := .ron
    departureTime := "09:00", arrivalTime := "13:00", active := true
    availableDays := some [3], studentDiscount := none
    closedDates := ["2024-12-25"] }

/-- The route of the basePrice-125 pricing scenario. -/
def c8route : Route :=
  { fromCity := "Chisinau", toCity := "Brasov", basePrice := 125, currency := .ron
    departureTime := "08:00", arrivalTime := "18:00", active := true
    availableDays := none, studentDiscount := none, closedDates := [] }

/-- The WELCOME10 promo of the pricing scenario: 10 percent capped at 20. -/
def c8promo : PromoCode :=
  { code := "WELCOME10", discountPercent := 10, discountFixed := 0, maxDiscount := 20
    validFrom := 0, validUntil := 4102444800, usageLimit := 0, usageCount := 0
    active := true }

/-- A paid booking hit by a late payment_failed event (C2). -/
def c2booking : Booking :=
  { bookingId := "BK-C2", fromCity := "Iasi", toCity := "Brasov", date := ⟨20082, 0⟩
    departureTime := "08:00", arrivalTime := "12:00"
    passenger := ⟨"Ana", "Pop", "ana@example.com", "0700000000"⟩
    subtotal := 100, fees := 3, discount := 0, studentDiscount := 0, total := 103
    currency := .ron, promoCode := none, status := .paid
    paymentIntentId := none, stripeCustomerId := none }

/-- Store holding only the paid C2 booking. -/
def c2db : DB := { bookings := [c2booking], tickets := [], promos := [] }

/-- A payment_failed event for the C2 booking. -/
def c2event : PaymentIntentEvent :=
  { id := "pi_c2", metadataBookingId := some "BK-C2", amountReceived := none
    amount := none, currency := none }

/-- A paid booking with stored total 100 (C4). -/
def c4booking : Booking :=
  { bookingId := "BK-C4", fromCity := "Cluj", toCity := "Chisinau", date := ⟨20082, 0⟩
    departureTime := "09:00", arrivalTime := "15:00"
    passenger := ⟨"Ion", "Rusu", "ion@example.com", "0711111111"⟩
    subtotal := 95, fees := 3, discount := 0, studentDiscount := 0, total := 100
    currency := .ron, promoCode := none, status := .paid
    paymentIntentId := none, stripeCustomerId := none }

/-- Store holding only the paid C4 booking. -/
def c4db : DB := { bookings := [c4booking], tickets := [], promos := [] }

/-- A pending booking with an applied promo code (C1). -/
def c1booking : Booking :=
  { bookingId := "BK-C1", fromCity := "Iasi", toCity := "Brasov", date := ⟨20082, 0⟩
    departureTime := "08:00", arrivalTime := "12:00"
    passenger := ⟨"Maria", "Rusu", "maria@example.com", "0722222222"⟩
    subtotal := 100, fees := 3, discount := 10, studentDiscount := 0, total := 93
    currency := .ron, promoCode := some "PROMO1", status := .pending
    paymentIntentId := none, stripeCustomerId := none }

/-- The promo record applied to the C1 booking, with usageCount 5. -/
def c1promo : PromoCode :=
  { code := "PROMO1", discountPercent := 10, discountFixed := 0, maxDiscount := 0
    validFrom := 0, validUntil := 4102444800, usageLimit := 0, usageCount := 5
    active := true }

/-- Store holding the pending C1 booking and its promo, with no tickets. -/
def c1db : DB := { bookings := [c1booking], tickets := [], promos := [c1promo] }

/-- The payment_intent.succeeded event for the C1 booking. -/
def c1event : PaymentIntentEvent :=
  { id := "pi_c1", metadataBookingId := some "BK-C1", amountReceived := some 9300
    amount := none, currency := some "ron" }

/-- A paid booking backing the C9 redemption ticket. -/
def c9booking : Booking :=
  { bookingId := "BK-C9", fromCity := "Iasi", toCity := "Brasov", date := ⟨20082, 0⟩
    departureTime := "08:00", arrivalTime := "12:00"
    passenger := ⟨"Dan", "Albu", "dan@example.com", "0733333333"⟩
    subtotal := 100, fees := 3, discount := 0, studentDiscount := 0, total := 103
    currency := .ron, promoCode := none, status := .paid
    paymentIntentId := some "pi_c9", stripeCustomerId := none }

/-- An unused ticket for the paid C9 booking. -/
def c9ticket : Ticket :=
  { ticketId := "TK-C9", bookingId := "BK-C9", qrToken := "qr-c9"
    fromCity := "Iasi", toCity := "Brasov", date := ⟨20082, 0⟩
    departureTime := "08:00", arrivalTime := "12:00", passengerName := "Dan Albu"
    price := 103, currency := .ron, isUsed := false, usedAt := none }

/-- Store holding the paid C9 booking and its unused ticket. -/
def c9db : DB := { bookings := [c9booking], tickets := [c9ticket], promos := [] }

/-- A pending (never paid) booking backing the C10 ticket. -/
def c10booking : Booking :=
  { bookingId := "BK-C10", fromCity := "Iasi", toCity := "Brasov", date := ⟨20082, 0⟩
    departureTime := "08:00", arrivalTime := "12:00"
    passenger := ⟨"Eva", "Moraru", "eva@example.com", "0744444444"⟩
    subtotal := 100, fees := 3, discount := 0, studentDiscount := 0, total := 103
    currency := .ron, promoCode := none, status := .pending
    paymentIntentId := none, stripeCustomerId := none }

/-- An unused ticket whose booking is not paid (C10). -/
def c10ticket : Ticket :=
  { ticketId := "TK-C10", bookingId := "BK-C10", qrToken := "qr-c10"
    fromCity := "Iasi", toCity := "Brasov", date := ⟨20082, 0⟩
    departureTime := "08:00", arrivalTime := "12:00", passengerName := "Eva Moraru"
    price := 103, currency := .ron, isUsed := false, usedAt := none }

/-- Store holding the pending C10 booking and its unused ticket. -/
def c10db : DB := { bookings := [c10booking], tickets := [c10ticket], promos := [] }


/-! Helper lemmas about the store operations. -/

theorem find?_updateBookingFirst (l : List Booking) (bid : String) (f : Booking → Booking)
    (hf : ∀ b, (f b).bookingId = b.bookingId) :
    (updateBookingFirst l bid f).find? (fun b => b.bookingId == bid)
      = (l.find? (fun b => b.bookingId == bid)).map f := by
  induction l with
  | nil => rfl
  | cons b rest ih =>
    by_cases h : b.bookingId = bid
    · simp [updateBookingFirst, List.find?, h, hf]
    · have hb : (b.bookingId == bid) = false := by simp [h]
      simp [updateBookingFirst, List.find?, h, hb, ih]

theorem find?_updateTicketFirst (l : List Ticket) (qr : String) (f : Ticket → Ticket)
    (hf : ∀ t, (f t).qrToken = t.qrToken) :
    (updateTicketFirst l qr f).find? (fun t => t.qrToken == qr)
      = (l.find? (fun t => t.qrToken == qr)).map f := by
  induction l with
  | nil => rfl
  | cons t rest ih =>
    by_cases h : t.qrToken = qr
    · simp [updateTicketFirst, List.find?, h, hf]
    · have hb : (t.qrToken == qr) = false := by simp [h]
      simp [updateTicketFirst, List.find?, h, hb, ih]

theorem find?_incPromoFirst (l : List PromoCode) (c : String) :
    (incPromoFirst l c).find? (fun p => p.code == c)
      = (l.find? (fun p => p.code == c)).map
          (fun p => { p with usageCount := p.usageCount + 1 }) := by
  induction l with
  | nil => rfl
  | cons p rest ih =>
    by_cases h : p.code = c
    · simp [incPromoFirst, List.find?, h]
    · have hb : (p.code == c) = false := by simp [h]
      simp [incPromoFirst, List.find?, h, hb, ih]

theorem findBooking_saveBooking (db : DB) (bid : String) (f : Booking → Booking)
    (hf : ∀ b, (f b).bookingId = b.bookingId) :
    findBooking (saveBooking db bid f) bid = (findBooking db bid).map f :=
  find?_updateBookingFirst db.bookings bid f hf

theorem findBooking_some_id (db : DB) (bid : String) (b : Booking)
    (h : findBooking db bid = some b) : b.bookingId = bid := by
  have := List.find?_some h
  simpa using this

theorem findTicketByQr_some_token (db : DB) (qr : String) (t : Ticket)
    (h : findTicketByQr db qr = some t) : t.qrToken = qr := by
  have := List.find?_some h
  simpa using this

theorem find?_bookingId_none (tl : List Ticket) (bid : String)
    (h : (tl.filter (fun t => t.bookingId == bid)).length = 0) :
    tl.find? (fun t => t.bookingId == bid) = none := by
  rw [List.find?_eq_none]
  intro t ht hp
  rw [List.length_eq_zero] at h
  have : t ∈ tl.filter (fun t => t.bookingId == bid) := List.mem_filter.mpr ⟨ht, hp⟩
  simp [h] at this

theorem applyCurrency_fields (cur : Option String) (b : Booking) :
    (applyCurrency cur b).bookingId = b.bookingId
    ∧ (applyCurrency cur b).promoCode = b.promoCode
    ∧ (applyCurrency cur b).status = b.status := by
  cases cur with
  | none => exact ⟨rfl, rfl, rfl⟩
  | some c =>
    simp only [applyCurrency]
    split_ifs <;> exact ⟨rfl, rfl, rfl⟩

theorem markPaid_fields (pi : PaymentIntentEvent) (b : Booking) :
    (markPaid pi b).bookingId = b.bookingId
    ∧ (markPaid pi b).promoCode = b.promoCode
    ∧ (markPaid pi b).status = BookingStatus.paid := by
  have h := applyCurrency_fields (pi.currency.map String.toUpper)
  unfold markPaid
  dsimp only
  split_ifs with hamt
  · exact ⟨(h _).1, (h _).2.1, (h _).2.2⟩
  · exact ⟨(h _).1, (h _).2.1, (h _).2.2⟩

/-! Claim theorems. -/

/-- C3: every booking created by createBooking persists
total = max(0, subtotal + fees - discount - studentDiscount), hence a
non-negative total with excess discounts silently absorbed, where subtotal is
the route basePrice and fees = max(3, round(subtotal * 0.015, 2 decimals)). -/
theorem createBooking_total_formula (route : Route) (promo : Option PromoCode)
    (requestedStudentDiscount : Option ℚ) :
    (createBookingPricing route promo requestedStudentDiscount).total
      = max 0 ((createBookingPricing route promo requestedStudentDiscount).subtotal
          + (createBookingPricing route promo requestedStudentDiscount).fees
          - (createBookingPricing route promo requestedStudentDiscount).discount
          - (createBookingPricing route promo requestedStudentDiscount).studentDiscount)
    ∧ (createBookingPricing route promo requestedStudentDiscount).subtotal = route.basePrice
    ∧ (createBookingPricing route promo requestedStudentDiscount).fees
        = max 3 (round2 (route.basePrice * 0.015))
    ∧ 0 ≤ (createBookingPricing route promo requestedStudentDiscount).total :=
  ⟨rfl, rfl, rfl, le_max_left 0 _⟩

/-- C5: with a non-negative requested student discount, the applied amount is
min(requested, route.studentDiscount) when the route has a positive
studentDiscount, 0 when the route has none, and never exceeds the configured
ceiling for any request. -/
theorem studentDiscount_clamped (route : Route) (requested : ℚ) (h : 0 ≤ requested) :
    (∀ sd, route.studentDiscount = some sd → 0 < sd →
        studentDiscountAmount (some requested) route = min requested sd)
    ∧ (route.studentDiscount = none → studentDiscountAmount (some requested) route = 0)
    ∧ (∀ (req : Option ℚ) sd, route.studentDiscount = some sd → 0 ≤ sd →
        studentDiscountAmount req route ≤ sd) := by
  refine ⟨?_, ?_, ?_⟩
  · intro sd hsd hpos
    unfold studentDiscountAmount
    rw [hsd]
    by_cases hr : 0 < requested
    · simp [hr, hpos]
    · have h0 : requested = 0 := le_antisymm (not_lt.mp hr) h
      subst h0
      simp [hpos, min_eq_left hpos.le]
  · intro hnone
    unfold studentDiscountAmount
    rw [hnone]
    dsimp only
    split_ifs <;> rfl
  · intro req sd hsd hsd0
    unfold studentDiscountAmount
    cases req with
    | none => exact hsd0
    | some v =>
      rw [hsd]
      dsimp only
      split_ifs with h1 h2
      · exact min_le_right v sd
      · exact hsd0
      · exact hsd0

/-- C5 witness: route ceiling 10, client requests 50, applied amount is 10. -/
theorem studentDiscount_clamped_witness :
    (0 : ℚ) ≤ 50 ∧ studentDiscountAmount (some 50) c5route = 10 := by
  refine ⟨by norm_num, ?_⟩
  have h := (studentDiscount_clamped c5route 50 (by norm_num)).1 10 rfl (by norm_num)
  rw [h, min_eq_right (by norm_num : (10 : ℚ) ≤ 50)]

/-- C6: with availableDays unset or empty only closedDates can block; with a
non-empty availableDays missing the weekday, the check fails DayNotAvailable
(before closedDates is consulted); on a permitted weekday with the date-key
closed, it fails DateClosed. -/
theorem availability_rules (route : Route) (t : JSTime) :
    ((route.availableDays = none ∨ route.availableDays = some []) →
        checkAvailability route t
          = (if route.closedDates.contains (isoDateKey (normalizeInstant t).days)
             then .dateClosed else .ok))
    ∧ (∀ days, route.availableDays = some days → days ≠ [] →
        days.contains (jsGetUTCDay t) = false →
        checkAvailability route t = .dayNotAvailable)
    ∧ (∀ days, route.availableDays = some days →
        days.contains (jsGetUTCDay t) = true →
        route.closedDates.contains (isoDateKey (normalizeInstant t).days) = true →
        checkAvailability route t = .dateClosed) := by
  refine ⟨?_, ?_, ?_⟩
  · rintro (hav | hav) <;> · unfold checkAvailability; rw [hav]; rfl
  · intro days hav hne hcont
    unfold checkAvailability
    rw [hav]
    have hlen : 0 < days.length := List.length_pos.mpr hne
    have hmem : jsGetUTCDay t ∉ days := by simpa using hcont
    simp [hlen, hmem]
  · intro days hav hcont hclosed
    unfold checkAvailability
    rw [hav]
    have hmem : jsGetUTCDay t ∈ days := by simpa using hcont
    have hcl : isoDateKey (normalizeInstant t).days ∈ route.closedDates := by
      simpa using hclosed
    simp [hmem, hcl]

/-- C6 witness: Wednesday-only route, Wednesday 2024-12-25 is in closedDates,
so the result is DateClosed (not DayNotAvailable). -/
theorem availability_rules_witness :
    checkAvailability c6route ⟨20082, 0⟩ = .dateClosed :=
  (availability_rules c6route ⟨20082, 0⟩).2.2 [3] rfl (by decide) (by decide)

/-- C7: normalizeTravelDate reads a bare YYYY-MM-DD as midnight UTC, rolls one
day forward exactly when the UTC hour is at least 12, truncates to UTC
midnight, and errors on empty or unparsable input; the date-key of 2024-12-25
is 2024-12-25 and the date-key of 2024-12-25T14:00:00Z is 2024-12-26. -/
theorem normalizeTravelDate_spec :
    (∀ t : JSTime, normalizeTravelDate (.dateObj t)
        = .ok ⟨if 12 ≤ jsGetUTCHours t then t.days + 1 else t.days, 0⟩)
    ∧ normalizeTravelDate (.str .empty) = .error "Date value cannot be empty"
    ∧ normalizeTravelDate (.str .unparsable) = .error "Invalid date value"
    ∧ (∀ y m d, normalizeTravelDate (.str (.bare y m d)) = .ok ⟨daysFromCivil y m d, 0⟩)
    ∧ formatDateKey (.str (.bare 2024 12 25)) = .ok "2024-12-25"
    ∧ formatDateKey (.str (.stamp ⟨daysFromCivil 2024 12 25, 14 * msPerHour⟩))
        = .ok "2024-12-26" := by
  refine ⟨?_, rfl, rfl, ?_, by rfl, by rfl⟩
  · intro t
    simp only [normalizeTravelDate, normalizeInstant]
    split_ifs <;> rfl
  · intro y m d
    simp [normalizeTravelDate, normalizeInstant, jsGetUTCHours, msPerHour]

theorem c8_round188 : round2 (125 * 0.015) = 1.88 := by
  unfold round2 jsRound
  norm_num

theorem c8_fees : (createBookingPricing c8route (some c8promo) none).fees = 3 := by
  show max 3 (round2 ((125 : ℚ) * 0.015)) = 3
  rw [c8_round188]
  norm_num

theorem c8_discount :
    (createBookingPricing c8route (some c8promo) none).discount = 12.5 := by
  show min (round2 ((125 : ℚ) * (10 / 100))) 20 = 12.5
  have hr : round2 ((125 : ℚ) * (10 / 100)) = 12.5 := by
    unfold round2 jsRound
    norm_num
  rw [hr]
  norm_num

theorem c8_total :
    (createBookingPricing c8route (some c8promo) none).total = 115.5 := by
  show max 0 (c8route.basePrice
      + (createBookingPricing c8route (some c8promo) none).fees
      - (createBookingPricing c8route (some c8promo) none).discount
      - (createBookingPricing c8route (some c8promo) none).studentDiscount) = 115.5
  rw [c8_fees, c8_discount]
  show max 0 ((125 : ℚ) + 3 - 12.5 - 0) = 115.5
  norm_num

/-- C8 counterexample: at basePrice 125 with WELCOME10 (10 percent capped at
20) the claimed fee 1.88 and total 114.38 are wrong: the minimum-fee floor
max(3, 1.88) yields fee 3. -/
theorem scenario125_claim_false :
    (createBookingPricing c8route (some c8promo) none).discount = 12.5
    ∧ (createBookingPricing c8route (some c8promo) none).fees ≠ 1.88
    ∧ (createBookingPricing c8route (some c8promo) none).total ≠ 114.38 := by
  refine ⟨c8_discount, ?_, ?_⟩
  · rw [c8_fees]
    norm_num
  · rw [c8_total]
    norm_num

/-- C8 amended: the rounded percentage part is 1.88, but the minimum floor
lifts the fee to max(3, 1.88) = 3; the discount is 12.5 and the total is
125 + 3 - 12.5 = 115.5. -/
theorem scenario125_actual :
    round2 (125 * 0.015) = 1.88
    ∧ (createBookingPricing c8route (some c8promo) none).fees = 3
    ∧ (createBookingPricing c8route (some c8promo) none).discount = 12.5
    ∧ (createBookingPricing c8route (some c8promo) none).total = 115.5 :=
  ⟨c8_round188, c8_fees, c8_discount, c8_total⟩

theorem overrideTotal_none (bid : String) (b : Booking) (db : DB) :
    overrideTotal bid none b db = (b, db) := rfl

theorem overrideTotal_small (bid : String) (amt : ℚ) (b : Booking) (db : DB)
    (h : ¬(0.01 < jsAbs (amt - b.total))) :
    overrideTotal bid (some amt) b db = (b, db) := by
  simp only [overrideTotal]
  rw [if_neg h]

theorem overrideTotal_big (bid : String) (amt : ℚ) (b : Booking) (db : DB)
    (h : 0.01 < jsAbs (amt - b.total)) :
    overrideTotal bid (some amt) b db
      = ({ b with total := amt }, saveBooking db bid (fun x => { x with total := amt })) := by
  simp only [overrideTotal]
  rw [if_pos h]

theorem handlePaymentFailed_cancels (db : DB) (pi : PaymentIntentEvent) (bid : String)
    (hmeta : pi.metadataBookingId = some bid) :
    (findBooking db bid = none → handlePaymentFailed pi db = .error "Booking not found")
    ∧ (∀ b, findBooking db bid = some b →
        handlePaymentFailed pi db
            = .ok (saveBooking db bid (fun x => { x with status := .cancelled }))
        ∧ (findBooking (saveBooking db bid (fun x => { x with status := .cancelled })) bid).map
              Booking.status = some .cancelled) := by
  constructor
  · intro hnone
    unfold handlePaymentFailed
    simp only [hmeta, hnone]
  · intro b hb
    constructor
    · unfold handlePaymentFailed
      simp only [hmeta, hb]
    · rw [findBooking_saveBooking db bid
        (fun x => { x with status := BookingStatus.cancelled }) (fun x => rfl), hb]
      rfl

theorem createPaymentSheet_nonpending (db : DB) (bid cid piid : String)
    (b : Booking) (hfind : findBooking db bid = some b)
    (hst : b.status ≠ .pending) :
    createPaymentSheet bid none cid piid db = (.alreadyProcessed b.status, db)
    ∧ (∀ amt : ℚ, ¬(0.01 < jsAbs (amt - b.total)) →
        createPaymentSheet bid (some amt) cid piid db = (.alreadyProcessed b.status, db))
    ∧ (∀ amt : ℚ, 0.01 < jsAbs (amt - b.total) →
        createPaymentSheet bid (some amt) cid piid db
            = (.alreadyProcessed b.status,
               saveBooking db bid (fun x => { x with total := amt }))
        ∧ (findBooking (saveBooking db bid (fun x => { x with total := amt })) bid).map
              Booking.total = some amt) := by
  refine ⟨?_, ?_, ?_⟩
  · unfold createPaymentSheet
    simp only [hfind, overrideTotal_none]
    rw [if_pos hst]
  · intro amt hlt
    unfold createPaymentSheet
    simp only [hfind, overrideTotal_small bid amt b db hlt]
    rw [if_pos hst]
  · intro amt hlt
    constructor
    · unfold createPaymentSheet
      simp only [hfind, overrideTotal_big bid amt b db hlt]
      rw [if_pos hst]
    · rw [findBooking_saveBooking db bid (fun x => { x with total := amt }) (fun x => rfl),
        hfind]
      rfl

/-- C2 counterexample: handlePaymentFailed moves an already-paid booking to
cancelled, so paid is not terminal under failPayment. -/
theorem handlePaymentFailed_cancels_paid_booking :
    c2booking.status = .paid
    ∧ (handlePaymentFailed c2event c2db).map
        (fun d => (findBooking d "BK-C2").map Booking.status)
      = .ok (some .cancelled) :=
  ⟨rfl, rfl⟩

/-- C2 amended: failPayment fails with BookingNotFound when no booking has
the id; otherwise it sets status to cancelled unconditionally, with no
pending-only guard, so even paid bookings are cancelled. -/
theorem handlePaymentFailed_spec (db : DB) (pi : PaymentIntentEvent) (bid : String)
    (hmeta : pi.metadataBookingId = some bid) :
    (findBooking db bid = none → handlePaymentFailed pi db = .error "Booking not found")
    ∧ (∀ b, findBooking db bid = some b →
        handlePaymentFailed pi db
            = .ok (saveBooking db bid (fun x => { x with status := .cancelled }))
        ∧ (findBooking (saveBooking db bid (fun x => { x with status := .cancelled })) bid).map
              Booking.status = some .cancelled) :=
  handlePaymentFailed_cancels db pi bid hmeta

/-- C2 witness: the amended behaviour at the concrete paid booking. -/
theorem handlePaymentFailed_spec_witness :
    handlePaymentFailed c2event c2db
        = .ok (saveBooking c2db "BK-C2" (fun x => { x with status := .cancelled }))
    ∧ (findBooking (saveBooking c2db "BK-C2" (fun x => { x with status := .cancelled }))
          "BK-C2").map Booking.status = some .cancelled :=
  (handlePaymentFailed_spec c2db c2event "BK-C2" rfl).2 c2booking rfl

/-- C4 counterexample: calling createPaymentSheet on a paid booking with an
amount override of 50 is rejected with BookingAlreadyProcessed, yet the
stored total has been overwritten and persisted as 50: partial state is left
behind by the rejection. -/
theorem createPaymentSheet_override_persists_on_rejection :
    c4booking.status = .paid
    ∧ (createPaymentSheet "BK-C4" (some 50) "cus_1" "pi_1" c4db).1
        = .alreadyProcessed .paid
    ∧ ((findBooking (createPaymentSheet "BK-C4" (some 50) "cus_1" "pi_1" c4db).2
          "BK-C4").map Booking.total) = some 50 := by
  have h := ((createPaymentSheet_nonpending c4db "BK-C4" "cus_1" "pi_1" c4booking rfl
      (by decide)).2.2 50 (by norm_num [jsAbs, c4booking])).1
  refine ⟨rfl, ?_, ?_⟩
  · rw [h]
    rfl
  · rw [h]
    rfl

/-- C4 amended: a booking whose status is not pending is rejected with
BookingAlreadyProcessed; with no override (or one within the 0.01 epsilon)
the store is untouched, but an override differing by more than 0.01 has
already been written to the stored total when the rejection occurs. -/
theorem createPaymentSheet_rejects_nonpending (db : DB) (bid cid piid : String)
    (b : Booking) (hfind : findBooking db bid = some b)
    (hst : b.status ≠ .pending) :
    createPaymentSheet bid none cid piid db = (.alreadyProcessed b.status, db)
    ∧ (∀ amt : ℚ, ¬(0.01 < jsAbs (amt - b.total)) →
        createPaymentSheet bid (some amt) cid piid db = (.alreadyProcessed b.status, db))
    ∧ (∀ amt : ℚ, 0.01 < jsAbs (amt - b.total) →
        createPaymentSheet bid (some amt) cid piid db
            = (.alreadyProcessed b.status,
               saveBooking db bid (fun x => { x with total := amt }))
        ∧ (findBooking (saveBooking db bid (fun x => { x with total := amt })) bid).map
              Booking.total = some amt) :=
  createPaymentSheet_nonpending db bid cid piid b hfind hst

/-- C4 witness: the amended behaviour at the concrete paid booking with and
without an override. -/
theorem createPaymentSheet_rejects_nonpending_witness :
    createPaymentSheet "BK-C4" none "cus_1" "pi_1" c4db
        = (.alreadyProcessed BookingStatus.paid, c4db)
    ∧ createPaymentSheet "BK-C4" (some 50) "cus_1" "pi_1" c4db
        = (.alreadyProcessed BookingStatus.paid,
           saveBooking c4db "BK-C4" (fun x => { x with total := 50 })) := by
  have h := createPaymentSheet_rejects_nonpending c4db "BK-C4" "cus_1" "pi_1" c4booking
    rfl (by decide)
  exact ⟨h.1, (h.2.2 50 (by norm_num [jsAbs, c4booking])).1⟩

theorem filter_length_append_one (tl : List Ticket) (tk : Ticket) (bid : String)
    (h : tk.bookingId = bid) :
    ((tl ++ [tk]).filter (fun t => t.bookingId == bid)).length
      = (tl.filter (fun t => t.bookingId == bid)).length + 1 := by
  simp [List.filter_append, h]

theorem promoUsage_inc_list (l : List PromoCode) (c : String)
    (h : (l.find? (fun p => p.code == c)).isSome) :
    (match (incPromoFirst l c).find? (fun p => p.code == c) with
      | some p => p.usageCount
      | none => 0)
      = (match l.find? (fun p => p.code == c) with
          | some p => p.usageCount
          | none => 0) + 1 := by
  rw [find?_incPromoFirst]
  cases hf : l.find? (fun p => p.code == c) with
  | none => rw [hf] at h; simp at h
  | some p => simp

theorem handlePaymentSuccess_step (db : DB) (pi : PaymentIntentEvent)
    (tid qr bid : String) (b : Booking) (c : String)
    (hmeta : pi.metadataBookingId = some bid)
    (hfind : findBooking db bid = some b)
    (hnotpaid : b.status ≠ .paid)
    (hpc : b.promoCode = some c)
    (hc : ¬(c = ""))
    (hnotick : findTicketByBooking db bid = none) :
    handlePaymentSuccess pi tid qr db
      = .ok { bookings := updateBookingFirst db.bookings bid (markPaid pi)
              tickets := db.tickets ++ [issueTicket tid qr (markPaid pi b)]
              promos := incPromoFirst db.promos c } := by
  have hbid : b.bookingId = bid := findBooking_some_id db bid b hfind
  obtain ⟨hmpId, hmpPc, hmpSt⟩ := markPaid_fields pi b
  unfold handlePaymentSuccess
  simp only [hmeta, hfind]
  rw [if_neg hnotpaid]
  simp only [hmpPc, hpc]
  rw [if_neg hc]
  simp only [hmpId, hbid, saveBooking, findTicketByBooking]
  rw [show db.tickets.find? (fun t => t.bookingId == bid) = none from hnotick]

theorem handlePaymentSuccess_paid_noop (db : DB) (pi : PaymentIntentEvent)
    (tid qr bid : String) (b : Booking)
    (hmeta : pi.metadataBookingId = some bid)
    (hfind : findBooking db bid = some b)
    (hpaid : b.status = .paid) :
    handlePaymentSuccess pi tid qr db = .ok db := by
  unfold handlePaymentSuccess
  simp only [hmeta, hfind]
  rw [if_pos hpaid]

/-- C1: confirmPayment is idempotent.  Delivering payment success to an
already-paid booking is a no-op; delivering it twice to a pending booking
yields exactly one ticket for the bookingId, exactly one promo usageCount
increment, and a booking that ends paid, with the second delivery returning
the store unchanged. -/
theorem confirmPayment_idempotent (db : DB) (pi : PaymentIntentEvent)
    (tid1 qr1 tid2 qr2 bid c : String) (b : Booking)
    (hmeta : pi.metadataBookingId = some bid)
    (hfind : findBooking db bid = some b)
    (hpending : b.status = .pending)
    (hpc : b.promoCode = some c)
    (hc : ¬(c = ""))
    (hpromo : (db.promos.find? (fun p => p.code == c)).isSome)
    (hcount : ticketCountFor db bid = 0) :
    (∀ (db0 : DB) (b0 : Booking), findBooking db0 bid = some b0 → b0.status = .paid →
        handlePaymentSuccess pi tid2 qr2 db0 = .ok db0)
    ∧ ∃ db1, handlePaymentSuccess pi tid1 qr1 db = .ok db1
        ∧ handlePaymentSuccess pi tid2 qr2 db1 = .ok db1
        ∧ (findBooking db1 bid).map Booking.status = some .paid
        ∧ ticketCountFor db1 bid = 1
        ∧ promoUsage db1 c = promoUsage db c + 1 := by
  have hbid : b.bookingId = bid := findBooking_some_id db bid b hfind
  obtain ⟨hmpId, hmpPc, hmpSt⟩ := markPaid_fields pi b
  have hnotpaid : b.status ≠ .paid := by simp [hpending]
  have hnotick : findTicketByBooking db bid = none :=
    find?_bookingId_none db.tickets bid hcount
  have hstep := handlePaymentSuccess_step db pi tid1 qr1 bid b c hmeta hfind hnotpaid
    hpc hc hnotick
  have hfindF : findBooking
      { bookings := updateBookingFirst db.bookings bid (markPaid pi)
        tickets := db.tickets ++ [issueTicket tid1 qr1 (markPaid pi b)]
        promos := incPromoFirst db.promos c } bid = some (markPaid pi b) := by
    show (updateBookingFirst db.bookings bid (markPaid pi)).find?
        (fun x => x.bookingId == bid) = some (markPaid pi b)
    rw [find?_updateBookingFirst db.bookings bid (markPaid pi)
      (fun x => (markPaid_fields pi x).1)]
    rw [show db.bookings.find? (fun x => x.bookingId == bid) = some b from hfind]
    rfl
  refine ⟨?_, _, hstep, ?_, ?_, ?_, ?_⟩
  · intro db0 b0 hf0 hp0
    exact handlePaymentSuccess_paid_noop db0 pi tid2 qr2 bid b0 hmeta hf0 hp0
  · unfold handlePaymentSuccess
    simp only [hmeta, hfindF]
    rw [if_pos hmpSt]
  · rw [hfindF]
    show some (markPaid pi b).status = some BookingStatus.paid
    rw [hmpSt]
  · have htkid : (issueTicket tid1 qr1 (markPaid pi b)).bookingId = bid := by
      show (markPaid pi b).bookingId = bid
      rw [hmpId, hbid]
    show ((db.tickets ++ [issueTicket tid1 qr1 (markPaid pi b)]).filter
        (fun t => t.bookingId == bid)).length = 1
    rw [filter_length_append_one db.tickets _ bid htkid]
    rw [show (db.tickets.filter (fun t => t.bookingId == bid)).length = 0 from hcount]
  · exact promoUsage_inc_list db.promos c hpromo

/-- C1 witness: the idempotent confirmation at a concrete pending booking
with promo PROMO1 at usageCount 5. -/
theorem confirmPayment_idempotent_witness :
    (∀ (db0 : DB) (b0 : Booking), findBooking db0 "BK-C1" = some b0 → b0.status = .paid →
        handlePaymentSuccess c1event "TK-2" "qr-2" db0 = .ok db0)
    ∧ ∃ db1, handlePaymentSuccess c1event "TK-1" "qr-1" c1db = .ok db1
        ∧ handlePaymentSuccess c1event "TK-2" "qr-2" db1 = .ok db1
        ∧ (findBooking db1 "BK-C1").map Booking.status = some .paid
        ∧ ticketCountFor db1 "BK-C1" = 1
        ∧ promoUsage db1 "PROMO1" = promoUsage c1db "PROMO1" + 1 :=
  confirmPayment_idempotent c1db c1event "TK-1" "qr-1" "TK-2" "qr-2" "BK-C1" "PROMO1"
    c1booking rfl rfl rfl rfl (by decide) rfl rfl

theorem useTicket_success_aux (db : DB) (qr : String) (now : JSTime) (t : Ticket)
    (hfind : findTicketByQr db qr = some t) (hunused : t.isUsed = false) :
    useTicket qr now db
      = (.success, { db with tickets := updateTicketFirst db.tickets qr (latchTicket now) })
    ∧ findTicketByQr
        { db with tickets := updateTicketFirst db.tickets qr (latchTicket now) } qr
      = some (latchTicket now t) := by
  constructor
  · unfold useTicket
    simp only [hfind, hunused, Bool.false_eq_true, if_false]
  · show (updateTicketFirst db.tickets qr (latchTicket now)).find?
        (fun x => x.qrToken == qr) = some (latchTicket now t)
    rw [find?_updateTicketFirst db.tickets qr (latchTicket now) (fun x => rfl)]
    rw [show db.tickets.find? (fun x => x.qrToken == qr) = some t from hfind]
    rfl

/-- C9: ticket redemption is a one-way latch.  use on an unknown token fails
NotFound; on an unused ticket it succeeds, setting isUsed and usedAt := now;
a second use fails AlreadyUsed carrying the stored usedAt; and validate after
use reports alreadyUsed with the original usedAt (for a paid booking). -/
theorem useTicket_one_way_latch (db : DB) (qr : String) (now now2 today : JSTime)
    (t : Ticket) (b : Booking)
    (hfind : findTicketByQr db qr = some t)
    (hunused : t.isUsed = false)
    (hb : findBooking db t.bookingId = some b)
    (hpaid : b.status = .paid) :
    (∀ db0 : DB, findTicketByQr db0 qr = none → useTicket qr now db0 = (.notFound, db0))
    ∧ ∃ db1, useTicket qr now db = (.success, db1)
        ∧ findTicketByQr db1 qr = some (latchTicket now t)
        ∧ useTicket qr now2 db1 = (.alreadyUsed (some now), db1)
        ∧ validateQRCode qr today db1 = .alreadyUsed (some now) := by
  obtain ⟨hstep, hfind1⟩ := useTicket_success_aux db qr now t hfind hunused
  refine ⟨?_, _, hstep, hfind1, ?_, ?_⟩
  · intro db0 h0
    unfold useTicket
    simp only [h0]
  · unfold useTicket
    simp only [hfind1]
    rfl
  · unfold validateQRCode
    simp only [hfind1]
    have hb1 : findBooking
        { db with tickets := updateTicketFirst db.tickets qr (latchTicket now) }
        (latchTicket now t).bookingId = some b := hb
    simp only [hb1, hpaid]
    rfl

/-- C9 witness: the latch at the concrete paid booking and unused ticket. -/
theorem useTicket_one_way_latch_witness :
    (∀ db0 : DB, findTicketByQr db0 "qr-c9" = none →
        useTicket "qr-c9" ⟨20082, 0⟩ db0 = (.notFound, db0))
    ∧ ∃ db1, useTicket "qr-c9" ⟨20082, 0⟩ c9db = (.success, db1)
        ∧ findTicketByQr db1 "qr-c9" = some (latchTicket ⟨20082, 0⟩ c9ticket)
        ∧ useTicket "qr-c9" ⟨20083, 0⟩ db1 = (.alreadyUsed (some ⟨20082, 0⟩), db1)
        ∧ validateQRCode "qr-c9" ⟨20082, 0⟩ db1 = .alreadyUsed (some ⟨20082, 0⟩) :=
  useTicket_one_way_latch c9db "qr-c9" ⟨20082, 0⟩ ⟨20083, 0⟩ ⟨20082, 0⟩ c9ticket
    c9booking rfl rfl rfl rfl

/-- C10: useTicket never consults the booking.  For an unused ticket whose
booking is not paid, validate reports BookingNotConfirmed yet use succeeds
and latches the ticket; the only failure conditions of use are an unknown
token and an already-used ticket. -/
theorem useTicket_ignores_booking_status (db : DB) (qr : String) (now today : JSTime)
    (t : Ticket) (b : Booking)
    (hfind : findTicketByQr db qr = some t)
    (hunused : t.isUsed = false)
    (hb : findBooking db t.bookingId = some b)
    (hnotpaid : b.status ≠ .paid) :
    validateQRCode qr today db = .bookingNotConfirmed
    ∧ (∃ db1, useTicket qr now db = (.success, db1)
        ∧ findTicketByQr db1 qr = some (latchTicket now t))
    ∧ (∀ (db0 : DB) (t0 : Ticket), findTicketByQr db0 qr = some t0 → t0.isUsed = false →
        (useTicket qr now db0).1 = .success) := by
  obtain ⟨hstep, hfind1⟩ := useTicket_success_aux db qr now t hfind hunused
  refine ⟨?_, ⟨_, hstep, hfind1⟩, ?_⟩
  · unfold validateQRCode
    simp only [hfind, hb]
    have hpb : (b.status == BookingStatus.paid) = false := by
      simpa using hnotpaid
    simp [hpb]
  · intro db0 t0 hf0 hu0
    rw [(useTicket_success_aux db0 qr now t0 hf0 hu0).1]

/-- C10 witness: the behaviour at a concrete unused ticket whose booking is
still pending. -/
theorem useTicket_ignores_booking_status_witness :
    validateQRCode "qr-c10" ⟨20082, 0⟩ c10db = .bookingNotConfirmed
    ∧ (∃ db1, useTicket "qr-c10" ⟨20082, 0⟩ c10db = (.success, db1)
        ∧ findTicketByQr db1 "qr-c10" = some (latchTicket ⟨20082, 0⟩ c10ticket))
    ∧ (∀ (db0 : DB) (t0 : Ticket), findTicketByQr db0 "qr-c10" = some t0 →
        t0.isUsed = false → (useTicket "qr-c10" ⟨20082, 0⟩ db0).1 = .success) :=
  useTicket_ignores_booking_status c10db "qr-c10" ⟨20082, 0⟩ ⟨20082, 0⟩ c10ticket
    c10booking rfl rfl rfl (by decide)

end Lavial
